import Mathlib

/-!
Shallow embedding of the essential-oils dosage calculator
(`backend/app/calculator.py` together with the value types of
`backend/app/models.py`).

Conventions of the embedding:
* Python floats are modelled as exact rationals (`ℚ`); the one function that
  genuinely needs a transcendental (`compute_inhalation_air_concentration`,
  which evaluates an exponential) is modelled over `ℝ` at the end of the file.
* Python `Optional[float]` becomes `Option ℚ`; Python truthiness tests on
  floats (`if x:`) are modelled as the corresponding `≠ 0` / `Option` tests.
* Pydantic schema validation is a boundary concern of the HTTP layer and is
  out of scope; the value types are plain structures.
* The mutable per-call scratch state of `EssentialOilCalculator`
  (`self.warnings`, `self.contraindications`, `self.constituent_analysis`,
  `self.uncertainty_factors`, `self.current_family`) is threaded explicitly
  as a `CalcState` value; methods that mutate it return the new state.
* A raised Python exception that escapes a method is modelled by
  `Except String`; messages reproduce the source messages (apostrophes are
  written with the `\x27` escape).
* Report fields that no verified property mentions and that carry no logic
  (Monte-Carlo sample statistics, timestamps, references, display strings
  built with float formatting) are omitted from the report structure.
-/

/-- `models.AgeCategory`. -/
inductive AgeCategory where
  | INFANT
  | CHILD_2_6
  | CHILD_6_12
  | ADULT
  | ELDERLY
deriving DecidableEq, Repr

/-- `models.Sex`. -/
inductive Sex where
  | MALE
  | FEMALE
deriving DecidableEq, Repr

/-- `models.AdministrationRoute`. -/
inductive AdministrationRoute where
  | TOPICAL
  | ORAL
  | INHALATION
deriving DecidableEq, Repr

/-- `models.BiochemicalFamily`. -/
inductive BiochemicalFamily where
  | MONOTERPENES_HYDROCARBONS
  | MONOTERPENOLS
  | MONOTERPENE_ALDEHYDES
  | MONOTERPENE_KETONES
  | MONOTERPENE_ESTERS
  | SESQUITERPENES
  | SESQUITERPENOLS
  | PHENOLS
  | PHENYLPROPANOIDS
  | ALDEHYDES_AROMATIC
  | ALDEHYDES_ALIPHATIC
  | KETONES_SAFE
  | KETONES_TOXIC
  | OXIDES
  | LACTONES
  | FUROCOUMARINS
  | ESTERS
  | ETHERS
deriving DecidableEq, Repr

/-- `models.PhysiologicalState`. -/
inductive PhysiologicalState where
  | NORMAL
  | PREGNANCY
  | BREASTFEEDING
deriving DecidableEq, Repr

/-- `models.Pathology`. -/
inductive Pathology where
  | NONE
  | HEPATIC
  | RENAL
  | RESPIRATORY
  | NEUROLOGICAL
  | HEMATOLOGICAL
  | G6PD
  | ASTHMA
  | EPILEPSY
deriving DecidableEq, Repr

/-- `models.Constituent`. -/
structure Constituent where
  name : String
  fraction : ℚ
  noael : Option ℚ := none
  ifra_limit : Option ℚ := none
  cir_limit : Option ℚ := none
  phototoxic : Bool := false
  cmr_status : Bool := false
  additional_uf : ℚ := 1
  source_oil : Option String := none
deriving DecidableEq, Repr

/-- `models.EssentialOil`. -/
structure EssentialOil where
  name : String
  constituents : List Constituent
  dominant_family : BiochemicalFamily
  density : ℚ := 9/10
  drop_weight_mg : ℚ := 30
  defurocoumarinated : Bool := false
deriving DecidableEq, Repr

/-- `models.FormulaItem`. -/
structure FormulaItem where
  oil : EssentialOil
  percentage : ℚ
  lot : Option String := none
deriving DecidableEq, Repr

/-- `models.Formula` (the derived `merged_constituents` field, never read by
the calculator, is omitted). -/
structure Formula where
  essential_oils : List FormulaItem
  total_percentage : ℚ := 100
deriving DecidableEq, Repr

/-- `models.Individual`. -/
structure Individual where
  body_weight : ℚ
  age_category : AgeCategory
  sex : Sex
  physiological_state : PhysiologicalState := .NORMAL
  pathologies : List Pathology := []
  treatments : List String := []
deriving DecidableEq, Repr

/-- `models.Application`. -/
structure Application where
  route : AdministrationRoute
  daily_amount : ℚ
  duration_days : ℤ := 7
  application_area : Option ℚ := none
  occlusion : Bool := false
  damaged_skin : Bool := false
  occlusion_factor : ℚ := 1
  room_volume_m3 : Option ℚ := none
  exposure_duration_min : Option ℚ := none
  air_change_rate : ℚ := 1/2
  evaporation_rate : ℚ := 1/10
deriving DecidableEq, Repr

/-- `models.Contraindication`; `ctype` embeds the source field `type`
(a literal `"absolute"` or `"relative"`). -/
structure Contraindication where
  ctype : String
  reason : String
  recommendation : String
deriving DecidableEq, Repr

/-- `models.CalculationRequest`.  The `multi_product_exposure` payload is
never consumed (the method the orchestrator would call on it does not exist,
see `calculate_dosage`), so only its presence is modelled. -/
structure CalculationRequest where
  individual : Individual
  essential_oil : Option EssentialOil := none
  formula : Option Formula := none
  application : Application
  multi_product_exposure : Bool := false
deriving DecidableEq, Repr

/-- `models.SafetyMargin`. -/
structure SafetyMargin where
  applied_factor : ℚ
  margin_percentage : ℚ
deriving DecidableEq, Repr

/-- One entry of the per-constituent analysis dictionary built by
`calculate_dosage` (source keys `"sed"`, `"ael"`, `"ratio"`,
`"budget_consumed"`; the third is renamed `sed_ael_quotient` here). -/
structure AnalysisEntry where
  sed : ℚ
  ael : ℚ
  sed_ael_quotient : ℚ
  budget_consumed : ℚ
deriving DecidableEq, Repr

/-- `models.DoseRecommendation` (fields carrying no logic are omitted;
`sed_over_ael` embeds the source field `sed_ael_ratio`, which defaults to 0
on the report paths that do not set it). -/
structure DoseRecommendation where
  final_dose_mg : ℚ
  concentration_percentage : ℚ
  min_dose_mg : ℚ
  max_dose_mg : ℚ
  safety_margin : SafetyMargin
  limiting_factor : String
  limiting_constituent : Option String := none
  sed_over_ael : ℚ := 0
  dose_drops_per_kg : ℚ := 0
deriving DecidableEq, Repr

/-- The `calculation_details` dictionary of the full-computation report.
`max_concentration_local` is `none` when the local sub-computation returned
its "no local limit" sentinel (`float inf` in the source). -/
structure CalculationDetails where
  uf_total : ℚ
  max_concentration_systemic : ℚ
  max_concentration_local : Option ℚ
  max_dose_he_mg : ℚ
  safety_factor_applied : ℚ
deriving DecidableEq, Repr

/-- `models.CalculationReport` (fields carrying no verified logic —
Monte-Carlo statistics, timestamp, version, references, the
`family_duration_limits` snapshot and the `why_this_limit` display string —
are omitted). -/
structure CalculationReport where
  dose_recommendation : DoseRecommendation
  contraindications : List Contraindication
  warnings : List String
  max_duration_days : ℤ
  uncertainty_factors_applied : List (String × ℚ)
  calculation_details : Option CalculationDetails := none
  constituent_analysis : List (String × AnalysisEntry) := []
deriving DecidableEq, Repr

/-- The mutable per-call scratch state of an `EssentialOilCalculator`
instance.  `current_family` is `none` while the `self.current_family`
attribute has never been assigned. -/
structure CalcState where
  uncertainty_factors : List (String × ℚ)
  warnings : List String
  contraindications : List Contraindication
  constituent_analysis : List (String × AnalysisEntry)
  current_family : Option BiochemicalFamily
deriving DecidableEq, Repr

/-- The state of a freshly constructed calculator (`__init__`). -/
def initState : CalcState :=
  { uncertainty_factors := []
    warnings := []
    contraindications := []
    constituent_analysis := []
    current_family := none }

/-- `EssentialOilCalculator.DEFAULT_UF`. -/
def DEFAULT_UF : ℚ := 100

/-- `EssentialOilCalculator.BIOAVAILABILITY`. -/
def BIOAVAILABILITY : AdministrationRoute → ℚ
  | .TOPICAL => 1
  | .ORAL => 9/10
  | .INHALATION => 8/10

/-- `EssentialOilCalculator.REFERENCE_NOAEL` (insertion-ordered dict). -/
def REFERENCE_NOAEL : List (String × ℚ) :=
  [("eugénol", 450), ("cinnamaldéhyde", 220), ("1,8-cinéole", 500),
   ("menthol", 200), ("citral", 100), ("linalool", 500), ("limonène", 600),
   ("α-pinène", 650), ("β-pinène", 600), ("camphre", 300), ("menthone", 400),
   ("pulegone", 20), ("menthofurane", 15), ("thuyone", 10), ("estragole", 50),
   ("anéthole", 300), ("géraniol", 400), ("nérol", 400)]

/-- `EssentialOilCalculator.IFRA_LIMITS`. -/
def IFRA_LIMITS : List (String × ℚ) :=
  [("cinnamaldéhyde", 5/100), ("eugénol", 1/2), ("citral", 6/10),
   ("linalool", 2), ("isoeugénol", 2/100)]

/-- `EssentialOilCalculator.CIR_LIMITS`. -/
def CIR_LIMITS : List (String × ℚ) :=
  [("menthol", 54/10)]

/-- `dict.get` on a string-keyed table. -/
def tableGet (l : List (String × ℚ)) (k : String) : Option ℚ :=
  (l.find? (fun p => p.1 = k)).map (fun p => p.2)

/-- `EssentialOilCalculator.FAMILY_DURATION_LIMITS` as a lookup. -/
def FAMILY_DURATION_LIMITS : BiochemicalFamily → Option ℤ
  | .PHENOLS => some 10
  | .KETONES_TOXIC => some 7
  | .ALDEHYDES_AROMATIC => some 14
  | .FUROCOUMARINS => some 14
  | .MONOTERPENES_HYDROCARBONS => some 21
  | .MONOTERPENOLS => some 21
  | _ => none

/-- `EssentialOilCalculator.FAMILY_ADDITIONAL_UF` as a lookup. -/
def FAMILY_ADDITIONAL_UF : BiochemicalFamily → Option ℚ
  | .KETONES_TOXIC => some 3
  | .PHENOLS => some 2
  | .ALDEHYDES_AROMATIC => some 2
  | .FUROCOUMARINS => some 5
  | _ => none

/-- The French value string of a `BiochemicalFamily` member (used to build
the `"family_…"` key of the uncertainty-factor breakdown). -/
def familyValueString : BiochemicalFamily → String
  | .MONOTERPENES_HYDROCARBONS => "monoterpènes hydrocarbures"
  | .MONOTERPENOLS => "monoterpénols"
  | .MONOTERPENE_ALDEHYDES => "aldéhydes monoterpéniques"
  | .MONOTERPENE_KETONES => "cétones monoterpéniques"
  | .MONOTERPENE_ESTERS => "esters monoterpéniques"
  | .SESQUITERPENES => "sesquiterpènes"
  | .SESQUITERPENOLS => "sesquiterpénols"
  | .PHENOLS => "phénols"
  | .PHENYLPROPANOIDS => "phénylpropanoïdes"
  | .ALDEHYDES_AROMATIC => "aldéhydes aromatiques"
  | .ALDEHYDES_ALIPHATIC => "aldéhydes aliphatiques"
  | .KETONES_SAFE => "cétones sûres"
  | .KETONES_TOXIC => "cétones toxiques"
  | .OXIDES => "oxydes"
  | .LACTONES => "lactones"
  | .FUROCOUMARINS => "furocoumarines"
  | .ESTERS => "esters"
  | .ETHERS => "éthers"

/-- `calculate_uncertainty_factor`: the total multiplicative factor together
with the named breakdown map written to `self.uncertainty_factors`.
`current_family` is the ambient `self.current_family` attribute
(`none` = attribute absent). -/
def calculate_uncertainty_factor (current_family : Option BiochemicalFamily)
    (individual : Individual) (application : Application) :
    ℚ × List (String × ℚ) :=
  let uf : ℚ := DEFAULT_UF
  let factors : List (String × ℚ) := [("base", DEFAULT_UF)]
  let (uf, factors) :=
    if individual.age_category = .INFANT then
      (uf * 10, factors ++ [("infant", 10)])
    else if individual.age_category = .CHILD_2_6 ∨
        individual.age_category = .CHILD_6_12 then
      (uf * 3, factors ++ [("child", 3)])
    else if individual.age_category = .ELDERLY then
      (uf * 2, factors ++ [("elderly", 2)])
    else (uf, factors)
  let (uf, factors) :=
    if individual.pathologies.contains .HEPATIC then
      (uf * 3, factors ++ [("hepatic", 3)])
    else (uf, factors)
  let (uf, factors) :=
    if individual.pathologies.contains .RENAL then
      (uf * 2, factors ++ [("renal", 2)])
    else (uf, factors)
  let (uf, factors) :=
    if individual.pathologies.contains .G6PD then
      (uf * 5, factors ++ [("g6pd", 5)])
    else (uf, factors)
  let (uf, factors) :=
    if individual.physiological_state = .PREGNANCY ∨
        individual.physiological_state = .BREASTFEEDING then
      (uf * 3, factors ++ [("pregnancy_breastfeeding", 3)])
    else (uf, factors)
  let (uf, factors) :=
    if application.duration_days > 14 then
      (uf * 3/2, factors ++ [("long_duration", 3/2)])
    else (uf, factors)
  let (uf, factors) :=
    match current_family with
    | some fam =>
      match FAMILY_ADDITIONAL_UF fam with
      | some fuf => (uf * fuf, factors ++ [("family_" ++ familyValueString fam, fuf)])
      | none => (uf, factors)
    | none => (uf, factors)
  (uf, factors)

/-- Python `str.lower()` restricted to the ASCII range, written over the
character list so that it evaluates structurally (`String.toLower` has the
same per-character behaviour but is defined by well-founded recursion). -/
def pyLower (s : String) : String := String.mk (s.data.map Char.toLower)

/-- NOAEL resolution inside `calculate_ael`: the constituent value, else the
reference table keyed by the lowercased name. -/
def resolve_noael (c : Constituent) : Option ℚ :=
  match c.noael with
  | some n => some n
  | none => tableGet REFERENCE_NOAEL (pyLower c.name)

/-- `calculate_ael`; raises `ValueError` when no NOAEL is resolvable. -/
def calculate_ael (c : Constituent) (uf : ℚ) : Except String ℚ :=
  match resolve_noael c with
  | some noael => Except.ok (noael / uf)
  | none => Except.error ("NOAEL non disponible pour " ++ c.name)

/-- `calculate_sed_topical` (also the body of `calculate_sed_oral`). -/
def calculate_sed_topical (daily_amount concentration constituent_fraction
    bioavailability body_weight : ℚ) : ℚ :=
  (daily_amount * concentration * constituent_fraction * bioavailability) /
    body_weight

/-- `merge_essential_oils`: the per-field conservative update applied on a
name collision (`if c.x and (m.x is None or c.x < m.x): m.x = c.x`; note the
truthiness test, under which a contributed `0.0` never overwrites). -/
def truthyMinUpdate (m v : Option ℚ) : Option ℚ :=
  match v with
  | none => m
  | some x =>
    if x ≠ 0 ∧ (m = none ∨ ∃ y, m = some y ∧ x < y) then some x else m

/-- The fresh merged entry created on first occurrence of a constituent name
(`p` is the fractional weight `percentage / 100`). -/
def freshMerged (oilName : String) (p : ℚ) (c : Constituent) : Constituent :=
  { name := c.name
    fraction := c.fraction * p
    noael := c.noael
    ifra_limit := c.ifra_limit
    cir_limit := c.cir_limit
    phototoxic := c.phototoxic
    cmr_status := c.cmr_status
    additional_uf := c.additional_uf
    source_oil := some oilName }

/-- The collision update applied to an existing merged entry. -/
def bumpMerged (p : ℚ) (c : Constituent) (m : Constituent) : Constituent :=
  { m with
    fraction := m.fraction + c.fraction * p
    noael := truthyMinUpdate m.noael c.noael
    ifra_limit := truthyMinUpdate m.ifra_limit c.ifra_limit
    cir_limit := truthyMinUpdate m.cir_limit c.cir_limit }

/-- One iteration of the constituent-accumulation loop of
`merge_essential_oils` over the insertion-ordered mapping `merged`. -/
def insertConstituent (merged : List Constituent) (oilName : String) (p : ℚ)
    (c : Constituent) : List Constituent :=
  if merged.any (fun m => m.name = c.name) then
    merged.map (fun m => if m.name = c.name then bumpMerged p c m else m)
  else
    merged ++ [freshMerged oilName p c]

/-- The nested accumulation loops of `merge_essential_oils`. -/
def mergeLoop (items : List FormulaItem) : List Constituent :=
  items.foldl
    (fun acc it =>
      it.oil.constituents.foldl
        (fun a c => insertConstituent a it.oil.name (it.percentage / 100) c)
        acc)
    []

/-- The `family_weights` accumulation of `merge_essential_oils`
(insertion-ordered dict from dominant family to accumulated weight). -/
def familyWeights (items : List FormulaItem) :
    List (BiochemicalFamily × ℚ) :=
  items.foldl
    (fun acc it =>
      let p := it.percentage / 100
      if acc.any (fun kv => kv.1 = it.oil.dominant_family) then
        acc.map (fun kv =>
          if kv.1 = it.oil.dominant_family then (kv.1, kv.2 + p) else kv)
      else acc ++ [(it.oil.dominant_family, p)])
    []

/-- `max(family_weights, key=...)`: the first key attaining the maximal
weight (a later key replaces the champion only when strictly greater). -/
def maxWeightFamily (l : List (BiochemicalFamily × ℚ)) :
    Option BiochemicalFamily :=
  match l with
  | [] => none
  | kv :: rest =>
    some (rest.foldl (fun best x => if x.2 > best.2 then x else best) kv).1

/-- `merge_essential_oils`.  The dominant-family `getD` default is
unreachable: `familyWeights` is nonempty whenever the item list is
(`maxWeightFamily_familyWeights_isSome`). -/
def merge_essential_oils (formula : Formula) : Except String EssentialOil :=
  if formula.essential_oils = [] then
    Except.error "Aucune huile essentielle dans la formule"
  else
    let total_percentage :=
      (formula.essential_oils.map (fun it => it.percentage)).sum
    if |total_percentage - 100| > 1/10 then
      Except.error "Les pourcentages ne totalisent pas 100%"
    else
      Except.ok
        { name := String.intercalate " + "
            (formula.essential_oils.map
              (fun it => it.oil.name ++ " (" ++ toString it.percentage ++ "%)"))
          constituents := mergeLoop formula.essential_oils
          dominant_family :=
            (maxWeightFamily (familyWeights formula.essential_oils)).getD
              .MONOTERPENES_HYDROCARBONS }

/-- `min` of a Python list (callers guarantee nonemptiness). -/
def listMin : List ℚ → ℚ
  | [] => 0
  | x :: xs => xs.foldl min x

/-- `list.index`: position of the first occurrence. -/
def idxOfQ : List ℚ → ℚ → Nat
  | [], _ => 0
  | y :: ys, x => if y = x then 0 else idxOfQ ys x + 1

/-- First whitespace-separated token (`detail.split()[0]`; the stored string
is the constituent name, which is the first token of the detail string).
Written over the character list so that it evaluates structurally. -/
def firstWord (s : String) : String :=
  String.mk ((s.data.dropWhile (fun c => c = ' ')).takeWhile (fun c => c ≠ ' '))

/-- The topical occlusion / damaged-skin block of
`get_max_concentration_systemic` (lines 262-267 = lines 269-274), applied to
a running bioavailability value.  The truthiness test
`occlusion_factor and occlusion_factor >= 1.0` is equivalent to
`occlusion_factor >= 1.0`. -/
def topicalAdjust (application : Application) (b : ℚ) : ℚ :=
  if application.route = .TOPICAL then
    let factor : ℚ :=
      if 1 ≤ application.occlusion_factor then application.occlusion_factor
      else 3/2
    let b1 := if application.occlusion then b * max 1 (min 3 factor) else b
    if application.damaged_skin then b1 * 2 else b1
  else b

/-- The effective bioavailability computed by
`get_max_concentration_systemic`: the per-route constant with the
occlusion/damaged-skin block applied twice, exactly as in the source. -/
def systemicBioavailability (application : Application) : ℚ :=
  topicalAdjust application
    (topicalAdjust application (BIOAVAILABILITY application.route))

/-- One iteration of the per-constituent loop of
`get_max_concentration_systemic`: a constituent with positive fraction and a
resolvable NOAEL appends its maximal safe concentration; one with positive
fraction but no NOAEL appends a warning (`except ValueError: continue`);
other constituents are ignored. -/
def systemicStep (uf bioavail : ℚ) (individual : Individual)
    (application : Application) (acc : List ℚ × List String)
    (c : Constituent) : List ℚ × List String :=
  if c.fraction > 0 then
    match resolve_noael c with
    | some noael =>
      (acc.1 ++ [((noael / uf) * individual.body_weight) /
        (application.daily_amount * c.fraction * bioavail)], acc.2)
    | none => (acc.1, acc.2 ++ ["NOAEL non disponible pour " ++ c.name])
  else acc

/-- The per-constituent loop of `get_max_concentration_systemic`: the
accumulated `max_concentrations` list and the warnings appended for skipped
constituents, in iteration order. -/
def systemicScan (uf bioavail : ℚ) (individual : Individual)
    (application : Application) (cs : List Constituent) :
    List ℚ × List String :=
  cs.foldl (systemicStep uf bioavail individual application) ([], [])

/-- The body of `get_max_concentration_systemic` after the scan, shared with
the spec-worded collapsed variant: pick the minimum, then name the
constituent found at that minimum's position *in the full constituent list*
(the source indexes `essential_oil.constituents` with an index into the
filtered `max_concentrations` list). -/
def systemicPick (s : CalcState) (essential_oil : EssentialOil)
    (factors : List (String × ℚ)) (scan : List ℚ × List String) :
    CalcState × Except String (ℚ × String × String) :=
  let s1 := { s with uncertainty_factors := factors,
                     warnings := s.warnings ++ scan.2 }
  if scan.1 = [] then
    (s1, Except.error "Aucun constituant avec NOAEL disponible")
  else
    let m := listMin scan.1
    let i := idxOfQ scan.1 m
    (s1, Except.ok (m, "systémique (AEL/SED)",
      ((essential_oil.constituents.get? i).map (fun c => c.name)).getD ""))

/-- `get_max_concentration_systemic`. -/
def get_max_concentration_systemic (s : CalcState)
    (essential_oil : EssentialOil) (individual : Individual)
    (application : Application) :
    CalcState × Except String (ℚ × String × String) :=
  let uff := calculate_uncertainty_factor s.current_family individual
    application
  systemicPick s essential_oil uff.2
    (systemicScan uff.1 (systemicBioavailability application) individual
      application essential_oil.constituents)

/-- Modelled from the spec: the variant of `get_max_concentration_systemic`
in which the repeated occlusion/damaged-skin block is collapsed to a single
application, as section 9 of the specification asserts is behaviour
preserving. -/
def get_max_concentration_systemic_collapsed (s : CalcState)
    (essential_oil : EssentialOil) (individual : Individual)
    (application : Application) :
    CalcState × Except String (ℚ × String × String) :=
  let uff := calculate_uncertainty_factor s.current_family individual
    application
  systemicPick s essential_oil uff.2
    (systemicScan uff.1
      (topicalAdjust application (BIOAVAILABILITY application.route))
      individual application essential_oil.constituents)

/-- The per-constituent loop of `get_max_concentration_local_limits`: the
`(max_concentration, constituent name)` pairs in append order — an explicit
(or reference-table) IFRA entry, then an explicit (or reference-table) CIR
entry, for each constituent with positive fraction. -/
def localScan (cs : List Constituent) : List (ℚ × String) :=
  cs.foldl
    (fun acc c =>
      if c.fraction > 0 then
        let acc1 :=
          match c.ifra_limit with
          | some l => acc ++ [(l / 100 / c.fraction, c.name)]
          | none =>
            match tableGet IFRA_LIMITS (pyLower c.name) with
            | some l => acc ++ [(l / 100 / c.fraction, c.name)]
            | none => acc
        match c.cir_limit with
        | some l => acc1 ++ [(l / 100 / c.fraction, c.name)]
        | none =>
          match tableGet CIR_LIMITS (pyLower c.name) with
          | some l => acc1 ++ [(l / 100 / c.fraction, c.name)]
          | none => acc1
      else acc)
    []

/-- `get_max_concentration_local_limits`; `none` models the
`(float("inf"), "aucune limite locale", "")` sentinel returned when no
constituent carries a local limit. -/
def get_max_concentration_local_limits (essential_oil : EssentialOil) :
    Option (ℚ × String × String) :=
  let entries := localScan essential_oil.constituents
  match entries with
  | [] => none
  | _ =>
    let concs := entries.map (fun e => e.1)
    let m := listMin concs
    let i := idxOfQ concs m
    some (m, "limite locale (IFRA/CIR)",
      firstWord (((entries.get? i).map (fun e => e.2)).getD ""))

/-- The universal infant contraindication. -/
def infantContraindication : Contraindication :=
  { ctype := "absolute"
    reason := "Âge < 30 mois"
    recommendation := "Contre-indiqué pour toutes les huiles essentielles" }

/-- `check_contraindications`. -/
def check_contraindications (individual : Individual)
    (essential_oil : EssentialOil) (application : Application) :
    List Contraindication :=
  if individual.age_category = .INFANT then [infantContraindication]
  else
    let l : List Contraindication := []
    let l :=
      if essential_oil.dominant_family = .PHENOLS then
        let l :=
          if individual.age_category = .CHILD_2_6 ∨
              individual.age_category = .CHILD_6_12 then
            l ++ [{ ctype := "absolute"
                    reason := "HE phénoliques chez l\x27enfant"
                    recommendation :=
                      "Éviter les HE riches en phénols chez les enfants" }]
          else l
        if individual.physiological_state = .PREGNANCY ∨
            individual.physiological_state = .BREASTFEEDING then
          l ++ [{ ctype := "relative"
                  reason := "HE phénoliques et grossesse/allaitement"
                  recommendation :=
                    "Éviter les phénols à forte dose pendant la grossesse" }]
        else l
      else l
    let l :=
      if essential_oil.dominant_family = .ALDEHYDES_AROMATIC then
        if individual.age_category = .CHILD_2_6 ∨
            individual.age_category = .CHILD_6_12 then
          l ++ [{ ctype := "absolute"
                  reason := "HE aldéhydiques chez l\x27enfant"
                  recommendation :=
                    "Éviter les aldéhydes aromatiques chez les enfants" }]
        else l
      else l
    let l :=
      if essential_oil.dominant_family = .KETONES_TOXIC ∨
          essential_oil.dominant_family = .KETONES_SAFE then
        let l :=
          if individual.physiological_state = .PREGNANCY then
            l ++ [{ ctype := "absolute"
                    reason := "Cétones et grossesse"
                    recommendation :=
                      "Éviter les cétones (pulegone, menthofurane, thuyone, camphre) pendant la grossesse" }]
          else l
        if individual.pathologies.contains .EPILEPSY then
          l ++ [{ ctype := "absolute"
                  reason := "Cétones et épilepsie"
                  recommendation :=
                    "Éviter les cétones chez les patients épileptiques" }]
        else l
      else l
    let l :=
      if application.route = .ORAL then
        if individual.age_category = .CHILD_2_6 ∨
            individual.age_category = .CHILD_6_12 ∨
            individual.age_category = .INFANT then
          l ++ [{ ctype := "absolute"
                  reason := "Voie orale chez l\x27enfant"
                  recommendation :=
                    "Voie orale contre-indiquée chez les enfants sauf spécialités validées" }]
        else l
      else l
    let l :=
      if individual.treatments.contains "anticoagulants" ∨
          individual.treatments.contains "antiagrégants" then
        l ++ ((essential_oil.constituents.filter
            (fun c => pyLower c.name = "eugénol")).map
          (fun _ =>
            { ctype := "relative"
              reason := "Eugénol et anticoagulants"
              recommendation :=
                "Prudence avec eugénol chez patients sous anticoagulants (effet anti-plaquettaire)" }))
      else l
    l

/-- Lines 419-424 of `calculate_dosage`: obtain the effective oil from the
formula (merging it) or the directly supplied oil; a `ValueError` escapes the
method uncaught when both are absent or the merge fails. -/
def resolve_requested_oil (request : CalculationRequest) :
    Except String EssentialOil :=
  match request.formula with
  | some formula => merge_essential_oils formula
  | none =>
    match request.essential_oil with
    | some oil => Except.ok oil
    | none => Except.error "Aucune huile essentielle ou formule fournie"

/-- The all-zero `DoseRecommendation` built on the two degraded report
paths. -/
def zeroDose (lf : String) : DoseRecommendation :=
  { final_dose_mg := 0
    concentration_percentage := 0
    min_dose_mg := 0
    max_dose_mg := 0
    safety_margin := { applied_factor := 0, margin_percentage := 0 }
    limiting_factor := lf }

/-- The report returned when an absolute contraindication is present. -/
def absoluteStopReport (s : CalcState)
    (contraindications : List Contraindication) : CalculationReport :=
  { dose_recommendation := zeroDose "contre-indication absolue"
    contraindications := contraindications
    warnings := s.warnings
    max_duration_days := 0
    uncertainty_factors_applied := s.uncertainty_factors
    calculation_details := none
    constituent_analysis := [] }

/-- The report returned by the `except` clause at the orchestrator
boundary. -/
def errorReport (s : CalcState)
    (contraindications : List Contraindication) : CalculationReport :=
  { dose_recommendation := zeroDose "erreur de calcul"
    contraindications := contraindications
    warnings := s.warnings
    max_duration_days := 0
    uncertainty_factors_applied := s.uncertainty_factors
    calculation_details := none
    constituent_analysis := [] }

/-- `self.warnings.append(f"Erreur de calcul: {str(e)}")`. -/
def withCalcError (s : CalcState) (msg : String) : CalcState :=
  { s with warnings := s.warnings ++ ["Erreur de calcul: " ++ msg] }

/-- Dict upsert for the per-constituent analysis map. -/
def upsertAnalysis (l : List (String × AnalysisEntry)) (k : String)
    (v : AnalysisEntry) : List (String × AnalysisEntry) :=
  if l.any (fun p => p.1 = k) then
    l.map (fun p => if p.1 = k then (k, v) else p)
  else l ++ [(k, v)]

/-- The per-constituent SED/AEL analysis loop of `calculate_dosage`.  Each
iteration recomputes the uncertainty factor (overwriting the stored
breakdown); a missing NOAEL (`ValueError`) or a zero body weight
(`ZeroDivisionError` in the SED) is swallowed by the bare `except` and the
constituent is skipped silently. -/
def analysisScan (s : CalcState) (essential_oil : EssentialOil)
    (individual : Individual) (application : Application)
    (final_concentration : ℚ) : CalcState :=
  essential_oil.constituents.foldl
    (fun s c =>
      if c.fraction > 0 then
        let uff := calculate_uncertainty_factor s.current_family individual
          application
        let s := { s with uncertainty_factors := uff.2 }
        match calculate_ael c uff.1 with
        | Except.error _ => s
        | Except.ok ael =>
          if individual.body_weight = 0 then s
          else
            let sed := calculate_sed_topical application.daily_amount
              final_concentration c.fraction
              (BIOAVAILABILITY application.route) individual.body_weight
            let q := if ael > 0 then sed / ael else 0
            let entry : AnalysisEntry := ⟨sed, ael, q, q * 100⟩
            { s with constituent_analysis :=
                upsertAnalysis s.constituent_analysis c.name entry }
      else s)
    s

/-- The message of the `AttributeError` raised (and downgraded to a warning)
when a multi-product exposure is supplied: the method
`process_multi_product_exposure` called by the orchestrator does not exist
on the calculator class. -/
def multiProductFailureMsg : String :=
  "Agrégation multi-produits échouée: \x27EssentialOilCalculator\x27 object has no attribute \x27process_multi_product_exposure\x27"

/-- The `try` block of `calculate_dosage` (lines 450-587): the full dose
computation, with every escaping exception downgraded to the zero-dose
`errorReport`.  The two in-model division-by-zero exceptions
(`margin_percentage` when the maximal dose is 0, `dose_drops_per_kg` when
the drop weight or body weight is 0) are modelled as explicit branches to
the error path. -/
def calcMain (s : CalcState) (request : CalculationRequest)
    (essential_oil : EssentialOil)
    (contraindications : List Contraindication) :
    CalcState × Except String CalculationReport :=
  let ind := request.individual
  let app := request.application
  match get_max_concentration_systemic s essential_oil ind app with
  | (s1, Except.error e) =>
    let s2 := withCalcError s1 e
    (s2, Except.ok (errorReport s2 contraindications))
  | (s1, Except.ok sysRes) =>
    let max_conc_systemic := sysRes.1
    let localRes := get_max_concentration_local_limits essential_oil
    let chosen :=
      match localRes with
      | some localTriple =>
        if localTriple.1 < max_conc_systemic then localTriple else sysRes
      | none => sysRes
    let max_concentration := chosen.1
    let limiting_factor := chosen.2.1
    let limiting_constituent := chosen.2.2
    let max_dose_he := app.daily_amount * max_concentration
    let final_dose := max_dose_he * (1/2)
    let final_concentration := max_concentration * (1/2)
    if max_dose_he = 0 then
      let s2 := withCalcError s1 "float division by zero"
      (s2, Except.ok (errorReport s2 contraindications))
    else
      let margin_percentage := ((max_dose_he - final_dose) / max_dose_he) * 100
      let max_duration0 :=
        (FAMILY_DURATION_LIMITS essential_oil.dominant_family).getD 14
      let max_duration :=
        if ind.age_category = .CHILD_2_6 ∨ ind.age_category = .CHILD_6_12 then
          min max_duration0 7
        else if ind.pathologies ≠ [] then min max_duration0 7
        else max_duration0
      let s2 := analysisScan s1 essential_oil ind app final_concentration
      let sed_over_ael :=
        match s2.constituent_analysis.find?
            (fun p => p.1 = limiting_constituent) with
        | some p => p.2.sed_ael_quotient
        | none => 0
      if essential_oil.drop_weight_mg = 0 ∨ ind.body_weight = 0 then
        let s3 := withCalcError s2 "float division by zero"
        (s3, Except.ok (errorReport s3 contraindications))
      else
        let dose_drops_per_kg :=
          final_dose / essential_oil.drop_weight_mg / ind.body_weight
        let s3 := (get_max_concentration_systemic s2 essential_oil ind app).1
        let s4 :=
          if request.multi_product_exposure then
            { s3 with warnings := s3.warnings ++ [multiProductFailureMsg] }
          else s3
        let uff := calculate_uncertainty_factor s4.current_family ind app
        let s5 := { s4 with uncertainty_factors := uff.2 }
        let dose : DoseRecommendation :=
          { final_dose_mg := final_dose
            concentration_percentage := final_concentration * 100
            min_dose_mg := final_dose * (1/2)
            max_dose_mg := max_dose_he
            safety_margin := ⟨1/2, margin_percentage⟩
            limiting_factor := limiting_factor
            limiting_constituent := some limiting_constituent
            sed_over_ael := sed_over_ael
            dose_drops_per_kg := dose_drops_per_kg }
        let details : CalculationDetails :=
          { uf_total := uff.1
            max_concentration_systemic := max_conc_systemic
            max_concentration_local := localRes.map (fun r => r.1)
            max_dose_he_mg := max_dose_he
            safety_factor_applied := 1/2 }
        (s5, Except.ok
          { dose_recommendation := dose
            contraindications := contraindications
            warnings := s5.warnings
            max_duration_days := max_duration
            uncertainty_factors_applied := s5.uncertainty_factors
            calculation_details := some details
            constituent_analysis := s5.constituent_analysis })

/-- `calculate_dosage`.  The scratch lists reset at lines 415-417 are
`warnings`, `contraindications` and `constituent_analysis`; the
`uncertainty_factors` map and `current_family` are *not* reset.  A missing
oil/formula or a failing merge raises out of the method
(`Except.error`). -/
def calculate_dosage (s0 : CalcState) (request : CalculationRequest) :
    CalcState × Except String CalculationReport :=
  let s := { s0 with warnings := [], contraindications := [],
                     constituent_analysis := [] }
  match resolve_requested_oil request with
  | Except.error e => (s, Except.error e)
  | Except.ok essential_oil =>
    let s := { s with current_family := some essential_oil.dominant_family }
    let contraindications :=
      check_contraindications request.individual essential_oil
        request.application
    if contraindications.any (fun c => c.ctype = "absolute") then
      (s, Except.ok (absoluteStopReport s contraindications))
    else
      calcMain s request essential_oil contraindications

/-! ### Concrete example inputs used by witnesses and counterexamples -/

/-- An oil whose first constituent has no resolvable NOAEL and whose second
one does. -/
def oilMix : EssentialOil :=
  { name := "Mix"
    constituents := [
      { name := "inconnu", fraction := 1/2 },
      { name := "linalool", fraction := 1/2, noael := some 500 }]
    dominant_family := .OXIDES }

/-- A single-constituent lavender-like oil with an explicit NOAEL. -/
def oilLin : EssentialOil :=
  { name := "Lavande"
    constituents := [{ name := "linalool", fraction := 1/2, noael := some 500 }]
    dominant_family := .OXIDES }

/-- An oil with no resolvable NOAEL on any constituent. -/
def oilNoData : EssentialOil :=
  { name := "Mystère"
    constituents := [{ name := "inconnu", fraction := 1/2 }]
    dominant_family := .OXIDES }

/-- A toxic-ketone-dominant oil. -/
def oilKetone : EssentialOil :=
  { name := "Sauge"
    constituents := [{ name := "thuyone", fraction := 3/10, noael := some 10 }]
    dominant_family := .KETONES_TOXIC }

/-- A healthy adult. -/
def indAdult : Individual :=
  { body_weight := 70, age_category := .ADULT, sex := .MALE }

/-- An adult with epilepsy. -/
def indEpilepsy : Individual :=
  { body_weight := 70, age_category := .ADULT, sex := .MALE,
    pathologies := [.EPILEPSY] }

/-- An infant. -/
def indInfant : Individual :=
  { body_weight := 8, age_category := .INFANT, sex := .MALE }

/-- A plain topical application. -/
def appTop : Application := { route := .TOPICAL, daily_amount := 1000 }

/-- A topical application under occlusion with multiplier 2. -/
def appOcc : Application :=
  { route := .TOPICAL, daily_amount := 1000, occlusion := true,
    occlusion_factor := 2 }

/-- Adult + lavender oil + plain topical application. -/
def reqLin : CalculationRequest :=
  { individual := indAdult, essential_oil := some oilLin,
    application := appTop }

/-- Infant + lavender oil + plain topical application. -/
def reqInfant : CalculationRequest :=
  { individual := indInfant, essential_oil := some oilLin,
    application := appTop }

/-- Epileptic adult + toxic-ketone oil + plain topical application. -/
def reqEpilepsy : CalculationRequest :=
  { individual := indEpilepsy, essential_oil := some oilKetone,
    application := appTop }

/-- Adult + oil with no toxicology data + plain topical application. -/
def reqNoData : CalculationRequest :=
  { individual := indAdult, essential_oil := some oilNoData,
    application := appTop }

/-- The lavender / tea-tree formula of the manual test (60% / 40%). -/
def formula6040 : Formula :=
  { essential_oils := [
      { oil := oilLin, percentage := 60 },
      { oil := { name := "Tea tree"
                 constituents := [{ name := "1,8-cinéole", fraction := 1/20,
                                    noael := some 500 }]
                 dominant_family := .OXIDES }
        percentage := 40 }] }

/-- The same two-oil formula with percentages summing to 99. -/
def formula99 : Formula :=
  { essential_oils := [
      { oil := oilLin, percentage := 60 },
      { oil := { name := "Tea tree"
                 constituents := [{ name := "1,8-cinéole", fraction := 1/20,
                                    noael := some 500 }]
                 dominant_family := .OXIDES }
        percentage := 39 }] }

/-- The single occlusion multiplier applied by one pass of the topical
block. -/
def occMult (application : Application) : ℚ :=
  if application.route = .TOPICAL ∧ application.occlusion then
    max 1 (min 3 (if 1 ≤ application.occlusion_factor then
      application.occlusion_factor else 3/2))
  else 1

/-- The single damaged-skin multiplier applied by one pass of the topical
block. -/
def dmgMult (application : Application) : ℚ :=
  if application.route = .TOPICAL ∧ application.damaged_skin then 2 else 1

/-- Replacement of the four inhalation-specific application parameters. -/
def setInhalationParams (application : Application) (rv ed : Option ℚ)
    (ach ev : ℚ) : Application :=
  { application with
    room_volume_m3 := rv
    exposure_duration_min := ed
    air_change_rate := ach
    evaporation_rate := ev }

/-- The same replacement lifted to a request. -/
def setRequestInhalationParams (request : CalculationRequest)
    (rv ed : Option ℚ) (ach ev : ℚ) : CalculationRequest :=
  { request with application :=
      setInhalationParams request.application rv ed ach ev }

/-- `compute_inhalation_air_concentration`.  The Python guard
`not all([room_volume_m3, exposure_duration_min, drop_weight_mg])` treats
`None` and `0.0` alike, modelled by `Option.getD 0 = 0`; the exponential
forces this one function onto `ℝ`. -/
noncomputable def compute_inhalation_air_concentration
    (application : Application) (essential_oil : EssentialOil) : ℝ :=
  if application.room_volume_m3.getD 0 = 0 ∨
      application.exposure_duration_min.getD 0 = 0 ∨
      essential_oil.drop_weight_mg = 0 then 0
  else
    let mass_evaporated_mg : ℚ := application.daily_amount *
      essential_oil.drop_weight_mg * application.evaporation_rate
    let t_hours : ℚ := application.exposure_duration_min.getD 0 / 60
    let ach : ℚ := application.air_change_rate
    let c_avg : ℝ :=
      if 0 < ach ∧ 0 < t_hours then
        ((mass_evaporated_mg / application.room_volume_m3.getD 0 : ℚ) : ℝ) *
          (1 - Real.exp (-((ach * t_hours : ℚ) : ℝ))) /
          ((ach * t_hours : ℚ) : ℝ)
      else ((mass_evaporated_mg / application.room_volume_m3.getD 0 : ℚ) : ℝ)
    max 0 c_avg

/-- The inhalation application of the manual test / scenario D. -/
def appInhal : Application :=
  { route := .INHALATION, daily_amount := 3, room_volume_m3 := some 20,
    exposure_duration_min := some 30, air_change_rate := 1,
    evaporation_rate := 3/10 }

/-- The eucalyptus oil of the manual test. -/
def oilEuca : EssentialOil :=
  { name := "Eucalyptus globulus"
    constituents := [{ name := "1,8-cinéole", fraction := 8/10,
                       noael := some 500 }]
    dominant_family := .OXIDES
    drop_weight_mg := 25 }

/-- Name lookup in the merged-constituent mapping (first match). -/
def findByName (l : List Constituent) (name : String) : Option Constituent :=
  l.find? (fun c => c.name = name)

/-- The `(oil name, weight, constituent)` triples visited by the nested
loops of `merge_essential_oils`, in iteration order. -/
def oilTriples (items : List FormulaItem) :
    List (String × ℚ × Constituent) :=
  items.flatMap (fun it => it.oil.constituents.map
    (fun c => (it.oil.name, it.percentage / 100, c)))

/-- The visited triples whose constituent carries a given name. -/
def matchingTriples (formula : Formula) (name : String) :
    List (String × ℚ × Constituent) :=
  (oilTriples formula.essential_oils).filter
    (fun tr => tr.2.2.name = name)

/-- The claimed merged fraction: the sum over contributing oils of
constituent fraction × oil weight. -/
def fractionContribSum (formula : Formula) (name : String) : ℚ :=
  ((matchingTriples formula name).map
    (fun tr => tr.2.2.fraction * tr.2.1)).sum

/-- The contributed values of one optional toxicology field, in
contribution order. -/
def contribValues (formula : Formula) (name : String)
    (g : Constituent → Option ℚ) : List (Option ℚ) :=
  (matchingTriples formula name).map (fun tr => g tr.2.2)

/-- One step of the minimum over non-null optional values. -/
def ominStep (a v : Option ℚ) : Option ℚ :=
  match v with
  | none => a
  | some y =>
    match a with
    | none => some y
    | some x => some (min x y)

/-- The minimum of the non-null values of a list of optional rationals
(`none` when every value is null) — the aggregation the specification
claims for NOAEL/IFRA/CIR on collision. -/
def nonNullMin (l : List (Option ℚ)) : Option ℚ :=
  l.foldl ominStep none

/-- An optional value that is either null or strictly positive. -/
def optPos (v : Option ℚ) : Prop :=
  match v with
  | none => True
  | some x => 0 < x

instance (v : Option ℚ) : Decidable (optPos v) := by
  cases v with
  | none => exact isTrue trivial
  | some x => exact inferInstanceAs (Decidable (0 < x))

/-- The merge accumulation step over visited triples. -/
def mergeStepT (acc : List Constituent) (tr : String × ℚ × Constituent) :
    List Constituent :=
  insertConstituent acc tr.1 tr.2.1 tr.2.2

/-- The collision update step over visited triples. -/
def bumpStepT (m : Constituent) (tr : String × ℚ × Constituent) :
    Constituent :=
  bumpMerged tr.2.1 tr.2.2 m

/-- The effect of one visited triple on the merged entry of a fixed name. -/
def optStep (name : String) (o : Option Constituent)
    (tr : String × ℚ × Constituent) : Option Constituent :=
  if tr.2.2.name = name then
    some (match o with
      | none => freshMerged tr.1 tr.2.1 tr.2.2
      | some m => bumpMerged tr.2.1 tr.2.2 m)
  else o

/-- A two-oil formula in which the same constituent name contributes a
positive NOAEL first and a 0.0 NOAEL second. -/
def formulaZeroNoael : Formula :=
  { essential_oils := [
      { oil := { name := "A"
                 constituents := [{ name := "x", fraction := 4/10,
                                    noael := some 5 }]
                 dominant_family := .OXIDES }
        percentage := 50 },
      { oil := { name := "B"
                 constituents := [{ name := "x", fraction := 4/10,
                                    noael := some 0 }]
                 dominant_family := .OXIDES }
        percentage := 50 }] }

/-! ### Claims -/

/-- Inversion helper: a `none` `toOption` means the computation raised. -/
theorem exists_error_of_toOption_none {α : Type} (r : Except String α)
    (h : r.toOption = none) : ∃ e, r = Except.error e := by
  cases r <;> simp_all [Except.toOption]

/-- Inversion helper: a `some` `toOption` means the computation returned. -/
theorem exists_ok_of_toOption_isSome {α : Type} (r : Except String α)
    (h : r.toOption.isSome = true) : ∃ a, r = Except.ok a := by
  cases r <;> simp_all [Except.toOption]

/-- C6: `merge_essential_oils` raises an error exactly when the formula's
oil list is empty or the sum of its percentages differs from 100 by more
than 0.1; in particular the two-oil 60%/40% formula succeeds and the
formula summing to 99 fails. -/
theorem claim_C6 :
    (∀ formula : Formula,
      (∃ e, merge_essential_oils formula = Except.error e) ↔
        (formula.essential_oils = [] ∨
          |(formula.essential_oils.map (fun it => it.percentage)).sum - 100|
            > 1/10)) ∧
    (∃ oil, merge_essential_oils formula6040 = Except.ok oil) ∧
    (∃ e, merge_essential_oils formula99 = Except.error e) := by
  have hmain : ∀ formula : Formula,
      (∃ e, merge_essential_oils formula = Except.error e) ↔
        (formula.essential_oils = [] ∨
          |(formula.essential_oils.map (fun it => it.percentage)).sum - 100|
            > 1/10) := by
    intro formula
    unfold merge_essential_oils
    by_cases h1 : formula.essential_oils = []
    · rw [if_pos h1]
      exact ⟨fun _ => Or.inl h1, fun _ => ⟨_, rfl⟩⟩
    · rw [if_neg h1]
      by_cases h2 : |(formula.essential_oils.map
          (fun it => it.percentage)).sum - 100| > 1/10
      · rw [if_pos h2]
        exact ⟨fun _ => Or.inr h2, fun _ => ⟨_, rfl⟩⟩
      · rw [if_neg h2]
        refine ⟨fun he => ?_, fun hc => ?_⟩
        · rcases he with ⟨e, he⟩
          exact Except.noConfusion he
        · rcases hc with h | h
          exacts [absurd h h1, absurd h h2]
  refine ⟨hmain, ?_, ?_⟩
  · match h : merge_essential_oils formula6040 with
    | Except.ok oil => exact ⟨oil, rfl⟩
    | Except.error e =>
      refine absurd ((hmain formula6040).mp ⟨e, h⟩) ?_
      push_neg
      exact ⟨by simp [formula6040], by norm_num [formula6040]⟩
  · exact (hmain formula99).mpr (Or.inr (by norm_num [formula99]))

/-- Evaluated lowercasing facts for the concrete constituent names. -/
theorem pyLower_linalool : pyLower "linalool" = "linalool" := rfl

/-- Evaluated lowercasing fact. -/
theorem pyLower_inconnu : pyLower "inconnu" = "inconnu" := rfl

/-- Evaluated lowercasing fact. -/
theorem pyLower_thuyone : pyLower "thuyone" = "thuyone" := rfl

/-- Evaluated lowercasing fact. -/
theorem pyLower_cineole : pyLower "1,8-cinéole" = "1,8-cinéole" := rfl

/-- Evaluated first-token fact. -/
theorem firstWord_linalool : firstWord "linalool" = "linalool" := rfl

/-- C2 (amended): the effective bioavailability of the systemic-limit
computation applies the clamped occlusion multiplier and the damaged-skin
multiplier *twice* each (the repeated block is live, not dead); collapsing
the duplicate block is behaviour preserving only on inputs where neither
occlusion nor damaged skin applies. -/
theorem claim_C2 :
    (∀ application : Application,
      systemicBioavailability application =
        BIOAVAILABILITY application.route * occMult application *
          dmgMult application * occMult application * dmgMult application) ∧
    (∀ application : Application, application.occlusion = false →
      application.damaged_skin = false →
      ∀ (s : CalcState) (essential_oil : EssentialOil)
        (individual : Individual),
        get_max_concentration_systemic_collapsed s essential_oil individual
            application =
          get_max_concentration_systemic s essential_oil individual
            application) := by
  constructor
  · intro application
    unfold systemicBioavailability topicalAdjust occMult dmgMult
    by_cases hr : application.route = .TOPICAL
    · by_cases ho : application.occlusion <;>
        by_cases hd : application.damaged_skin <;>
          simp [hr, ho, hd]
    · simp [hr]
  · intro application ho hd s essential_oil individual
    unfold get_max_concentration_systemic_collapsed
      get_max_concentration_systemic systemicBioavailability
    have h : topicalAdjust application
        (topicalAdjust application (BIOAVAILABILITY application.route)) =
        topicalAdjust application (BIOAVAILABILITY application.route) := by
      unfold topicalAdjust
      simp [ho, hd]
    rw [h]

/-- Witness for C2: both conjuncts instantiated at a concrete
occlusion-free topical application. -/
theorem claim_C2_witness :
    systemicBioavailability appTop =
      BIOAVAILABILITY appTop.route * occMult appTop * dmgMult appTop *
        occMult appTop * dmgMult appTop ∧
    get_max_concentration_systemic_collapsed initState oilLin indAdult
        appTop =
      get_max_concentration_systemic initState oilLin indAdult appTop :=
  ⟨claim_C2.1 appTop,
    claim_C2.2 appTop rfl rfl initState oilLin indAdult⟩

/-- Counterexample for C2 as stated: under occlusion with multiplier 2 the
source computes a systemic limit of 7/40 (bioavailability 1 × 2 × 2 = 4)
while the single-application variant the claim asserts equivalent computes
7/20. -/
theorem claim_C2_counterexample :
    (get_max_concentration_systemic initState oilLin indAdult appOcc).2 =
      Except.ok (7/40, "systémique (AEL/SED)", "linalool") ∧
    (get_max_concentration_systemic_collapsed initState oilLin indAdult
        appOcc).2 =
      Except.ok (7/20, "systémique (AEL/SED)", "linalool") ∧
    (7/40 : ℚ) ≠ 7/20 := by
  refine ⟨?_, ?_, by norm_num⟩ <;>
    norm_num +decide [get_max_concentration_systemic,
      get_max_concentration_systemic_collapsed, systemicPick, systemicScan, systemicStep,
      systemicBioavailability, topicalAdjust, calculate_uncertainty_factor,
      BIOAVAILABILITY, resolve_noael, tableGet, REFERENCE_NOAEL, oilLin,
      indAdult, appOcc, initState, listMin, idxOfQ, DEFAULT_UF,
      FAMILY_ADDITIONAL_UF, min_def, max_def, pyLower_linalool]

/-- C3 (failing evaluation): with a first constituent lacking any
resolvable NOAEL and a second constituent ("linalool") carrying one, the
systemic solver returns the correct minimal concentration 7/10 but names
"inconnu" — the constituent at the minimum's position in the *filtered*
list — although the only constituent attaining the minimum is
"linalool". -/
theorem claim_C3_failing :
    (get_max_concentration_systemic initState oilMix indAdult appTop).2 =
      Except.ok (7/10, "systémique (AEL/SED)", "inconnu") ∧
    (oilMix.constituents.filter
        (fun c => decide (c.fraction > 0) && (resolve_noael c).isSome)).map
      (fun c => c.name) = ["linalool"] ∧
    "inconnu" ≠ "linalool" := by
  refine ⟨?_, ?_, by simp⟩ <;>
    norm_num +decide [get_max_concentration_systemic, systemicPick,
      systemicScan, systemicStep, systemicBioavailability, topicalAdjust,
      calculate_uncertainty_factor, BIOAVAILABILITY, resolve_noael, tableGet,
      REFERENCE_NOAEL, oilMix, indAdult, appTop, initState, listMin, idxOfQ,
      DEFAULT_UF, FAMILY_ADDITIONAL_UF, min_def, max_def, pyLower_linalool,
      pyLower_inconnu, List.filter]

/-- C4 (failing evaluation): after a first full computation on the same
calculator instance, an infant request short-circuits and its report carries
the uncertainty-factor breakdown written by the *previous* call
(`[("base", 100)]`), whereas the same infant request on a fresh instance
reports an empty map — the `uncertainty_factors` scratch field is not reset
at the start of `calculate_dosage`. -/
theorem claim_C4_failing :
    (calculate_dosage (calculate_dosage initState reqLin).1
        reqInfant).2.toOption.map
      (fun r => r.uncertainty_factors_applied) = some [("base", 100)] ∧
    (calculate_dosage initState reqInfant).2.toOption.map
      (fun r => r.uncertainty_factors_applied) = some [] := by
  constructor <;>
    norm_num +decide [calculate_dosage, reqLin, reqInfant,
      resolve_requested_oil, check_contraindications, oilLin, indAdult,
      indInfant, appTop, initState, absoluteStopReport, zeroDose,
      Except.toOption, calcMain, get_max_concentration_systemic, systemicPick,
      systemicScan, systemicStep, systemicBioavailability, topicalAdjust,
      calculate_uncertainty_factor, BIOAVAILABILITY, resolve_noael, tableGet,
      REFERENCE_NOAEL, listMin, idxOfQ, DEFAULT_UF, FAMILY_ADDITIONAL_UF,
      get_max_concentration_local_limits, localScan, IFRA_LIMITS, CIR_LIMITS,
      firstWord_linalool, analysisScan, calculate_ael, calculate_sed_topical,
      upsertAnalysis, withCalcError, errorReport, FAMILY_DURATION_LIMITS,
      multiProductFailureMsg, infantContraindication, pyLower_linalool,
      min_def, max_def]

/-- C1 (amended): whenever the contraindication check produces at least one
absolute contraindication — infant or not — `calculate_dosage` skips the
dose computation entirely and returns the zero-dose short-circuit report
carrying the contraindication list (`final_dose_mg = 0`,
`limiting_factor = "contre-indication absolue"`,
`max_duration_days = 0`). -/
theorem claim_C1 (s : CalcState) (request : CalculationRequest)
    (essential_oil : EssentialOil)
    (hoil : resolve_requested_oil request = Except.ok essential_oil)
    (habs : (check_contraindications request.individual essential_oil
        request.application).any (fun c => c.ctype = "absolute") = true) :
    (calculate_dosage s request).2.toOption.map
      (fun r => (r.dose_recommendation.final_dose_mg,
        r.dose_recommendation.limiting_factor,
        r.contraindications, r.max_duration_days)) =
    some (0, "contre-indication absolue",
      check_contraindications request.individual essential_oil
        request.application, 0) := by
  simp only [calculate_dosage, hoil, habs]
  simp [absoluteStopReport, zeroDose, Except.toOption]

/-- Witness for C1 at the concrete epileptic-adult / toxic-ketone
request. -/
theorem claim_C1_witness :
    (calculate_dosage initState reqEpilepsy).2.toOption.map
      (fun r => (r.dose_recommendation.final_dose_mg,
        r.dose_recommendation.limiting_factor,
        r.contraindications, r.max_duration_days)) =
    some (0, "contre-indication absolue",
      check_contraindications reqEpilepsy.individual oilKetone
        reqEpilepsy.application, 0) :=
  claim_C1 initState reqEpilepsy oilKetone rfl (by decide)

/-- Counterexample for C1 as stated: an adult with epilepsy using a
toxic-ketone oil triggers an absolute contraindication that is not the
infant rule, yet the returned report carries a *zero* dose — the full dose
computation is not run for non-infant absolute contraindications. -/
theorem claim_C1_counterexample :
    (calculate_dosage initState reqEpilepsy).2.toOption.map
      (fun r => (r.dose_recommendation.final_dose_mg,
        r.contraindications.map (fun c => (c.ctype, c.reason)))) =
    some (0, [("absolute", "Cétones et épilepsie")]) := by
  norm_num +decide [calculate_dosage, reqEpilepsy, resolve_requested_oil,
    check_contraindications, oilKetone, indEpilepsy, appTop, initState,
    absoluteStopReport, zeroDose, Except.toOption, pyLower_thuyone]

/-- C8: for every request whose individual is an infant (and whose oil
resolves), the report contains exactly the single absolute
"Âge < 30 mois" contraindication, a zero final dose and a zero maximal
duration. -/
theorem claim_C8 (s : CalcState) (request : CalculationRequest)
    (essential_oil : EssentialOil)
    (hoil : resolve_requested_oil request = Except.ok essential_oil)
    (hage : request.individual.age_category = .INFANT) :
    (calculate_dosage s request).2.toOption.map
      (fun r => (r.contraindications, r.dose_recommendation.final_dose_mg,
        r.max_duration_days)) =
    some ([infantContraindication], 0, 0) := by
  have hcheck : check_contraindications request.individual essential_oil
      request.application = [infantContraindication] := by
    unfold check_contraindications
    rw [if_pos hage]
  simp only [calculate_dosage, hoil, hcheck]
  simp [absoluteStopReport, zeroDose, Except.toOption, infantContraindication]

/-- Witness for C8 at the concrete infant request. -/
theorem claim_C8_witness :
    (calculate_dosage initState reqInfant).2.toOption.map
      (fun r => (r.contraindications, r.dose_recommendation.final_dose_mg,
        r.max_duration_days)) =
    some ([infantContraindication], 0, 0) :=
  claim_C8 initState reqInfant oilLin rfl rfl

/-- Characterization of the systemic per-constituent loop: the concentration
list is exactly the image of the constituents with positive fraction and
resolvable NOAEL, and the appended warnings are exactly the messages for the
constituents with positive fraction and no resolvable NOAEL. -/
theorem systemicScan_eq (uf bv : ℚ) (individual : Individual)
    (application : Application) (cs : List Constituent) :
    systemicScan uf bv individual application cs =
      ((cs.filter (fun c => decide (c.fraction > 0) &&
          (resolve_noael c).isSome)).map
        (fun c => (((resolve_noael c).getD 0) / uf *
          individual.body_weight) /
          (application.daily_amount * c.fraction * bv)),
       (cs.filter (fun c => decide (c.fraction > 0) &&
          (resolve_noael c).isNone)).map
        (fun c => "NOAEL non disponible pour " ++ c.name)) := by
  unfold systemicScan
  suffices h : ∀ (l : List Constituent) (a : List ℚ) (b : List String),
      l.foldl (systemicStep uf bv individual application) (a, b) =
        (a ++ (l.filter (fun c => decide (c.fraction > 0) &&
            (resolve_noael c).isSome)).map
          (fun c => (((resolve_noael c).getD 0) / uf *
            individual.body_weight) /
            (application.daily_amount * c.fraction * bv)),
         b ++ (l.filter (fun c => decide (c.fraction > 0) &&
            (resolve_noael c).isNone)).map
          (fun c => "NOAEL non disponible pour " ++ c.name)) by
    simpa using h cs [] []
  intro l
  induction l with
  | nil => intro a b; simp
  | cons c l ih =>
    intro a b
    by_cases hf : c.fraction > 0
    · cases hres : resolve_noael c with
      | some n =>
        simp [systemicStep, hf, hres, List.filter_cons, ih,
          List.append_assoc]
      | none =>
        simp [systemicStep, hf, hres, List.filter_cons, ih,
          List.append_assoc]
    · simp [systemicStep, hf, List.filter_cons, ih]

/-- C5: a constituent with positive fraction but no resolvable NOAEL is
skipped with a warning while the remaining constituents are still processed
(the concentration list equals that of the resolvable sublist); and when no
constituent at all has a resolvable NOAEL, `calculate_dosage` does not raise
but returns a zero-dose report whose warnings contain the error text. -/
theorem claim_C5 :
    (∀ (uf bv : ℚ) (individual : Individual) (application : Application)
        (cs : List Constituent) (c : Constituent), c ∈ cs →
        c.fraction > 0 → resolve_noael c = none →
        ("NOAEL non disponible pour " ++ c.name) ∈
            (systemicScan uf bv individual application cs).2 ∧
          (systemicScan uf bv individual application cs).1 =
            (systemicScan uf bv individual application
              (cs.filter (fun x => decide (x.fraction > 0) &&
                (resolve_noael x).isSome))).1) ∧
    (∀ (s : CalcState) (request : CalculationRequest)
        (essential_oil : EssentialOil),
        resolve_requested_oil request = Except.ok essential_oil →
        (∀ c ∈ essential_oil.constituents, c.fraction > 0 →
          resolve_noael c = none) →
        (check_contraindications request.individual essential_oil
            request.application).any (fun c => c.ctype = "absolute") = false →
        ∃ r, (calculate_dosage s request).2 = Except.ok r ∧
          r.dose_recommendation.final_dose_mg = 0 ∧
          r.dose_recommendation.limiting_factor = "erreur de calcul" ∧
          "Erreur de calcul: Aucun constituant avec NOAEL disponible" ∈
            r.warnings) := by
  constructor
  · intro uf bv individual application cs c hc hf hres
    constructor
    · rw [systemicScan_eq]
      simp only [List.mem_map]
      refine ⟨c, ?_, rfl⟩
      rw [List.mem_filter]
      exact ⟨hc, by simp [hf, hres]⟩
    · rw [systemicScan_eq, systemicScan_eq]
      simp [List.filter_filter]
  · intro s request essential_oil hoil hnone hnoabs
    have hfilter : essential_oil.constituents.filter
        (fun c => decide (c.fraction > 0) &&
          (resolve_noael c).isSome) = [] := by
      rw [List.filter_eq_nil_iff]
      intro c hc
      by_cases hf : c.fraction > 0
      · simp [hf, hnone c hc hf]
      · simp [hf]
    have hscan1 : ∀ uf bv, (systemicScan uf bv request.individual
        request.application essential_oil.constituents).1 = [] := by
      intro uf bv
      rw [systemicScan_eq]
      simp [hfilter]
    have hg : ∀ st : CalcState,
        get_max_concentration_systemic st essential_oil request.individual
          request.application =
        ({ st with
            uncertainty_factors := (calculate_uncertainty_factor
              st.current_family request.individual request.application).2,
            warnings := st.warnings ++
              (systemicScan (calculate_uncertainty_factor st.current_family
                  request.individual request.application).1
                (systemicBioavailability request.application)
                request.individual request.application
                essential_oil.constituents).2 },
          Except.error "Aucun constituant avec NOAEL disponible") := by
      intro st
      unfold get_max_concentration_systemic systemicPick
      rw [if_pos (hscan1 _ _)]
    simp only [calculate_dosage, hoil, hnoabs, Bool.false_eq_true, if_false,
      calcMain, hg]
    refine ⟨_, rfl, rfl, rfl, ?_⟩
    simp [withCalcError, errorReport]

/-- Witness for C5: part one at the mixed oil whose first constituent lacks
a NOAEL, part two at a request whose only constituent lacks one. -/
theorem claim_C5_witness :
    (("NOAEL non disponible pour " ++ "inconnu") ∈
        (systemicScan 100 1 indAdult appTop oilMix.constituents).2 ∧
      (systemicScan 100 1 indAdult appTop oilMix.constituents).1 =
        (systemicScan 100 1 indAdult appTop
          (oilMix.constituents.filter (fun x => decide (x.fraction > 0) &&
            (resolve_noael x).isSome))).1) ∧
    (∃ r, (calculate_dosage initState reqNoData).2 = Except.ok r ∧
      r.dose_recommendation.final_dose_mg = 0 ∧
      r.dose_recommendation.limiting_factor = "erreur de calcul" ∧
      "Erreur de calcul: Aucun constituant avec NOAEL disponible" ∈
        r.warnings) :=
  ⟨claim_C5.1 100 1 indAdult appTop oilMix.constituents
      ⟨"inconnu", 1/2, none, none, none, false, false, 1, none⟩
      (by simp [oilMix]) (by norm_num) (by decide),
    claim_C5.2 initState reqNoData oilNoData rfl
      (by
        intro c hc hf
        simp only [oilNoData] at hc
        rw [List.mem_singleton] at hc
        subst hc
        decide)
      (by decide)⟩

/-- C10: the dose computation is independent of the inhalation-specific
application parameters — two requests identical except in
`room_volume_m3`, `exposure_duration_min`, `air_change_rate` and
`evaporation_rate` produce *identical* systemic-limit results and identical
`calculate_dosage` results (hence equal systemic and local maximum
concentrations, final dose and concentration percentage); both proofs are
definitional because the air-concentration model is never invoked by
`calculate_dosage`. -/
theorem claim_C10 :
    (∀ (s : CalcState) (essential_oil : EssentialOil)
        (individual : Individual) (application : Application)
        (rv ed : Option ℚ) (ach ev : ℚ),
      get_max_concentration_systemic s essential_oil individual
        (setInhalationParams application rv ed ach ev) =
      get_max_concentration_systemic s essential_oil individual
        application) ∧
    (∀ (s : CalcState) (request : CalculationRequest)
        (rv ed : Option ℚ) (ach ev : ℚ),
      calculate_dosage s (setRequestInhalationParams request rv ed ach ev) =
      calculate_dosage s request) :=
  ⟨fun _ _ _ _ _ _ _ _ => rfl, fun _ _ _ _ _ _ => rfl⟩


/-- C9: the inhalation air concentration is never negative; it is zero
whenever the room volume or exposure duration is unset or the drop weight
is zero; and for set, positive parameters with positive air-change rate and
exposure duration it equals the closed-form exponential-decay average
`(mass_evaporated / room_volume) * (1 - exp(-ach * t_hours)) / (ach * t_hours)`
with `mass_evaporated = daily_amount * drop_weight_mg * evaporation_rate`. -/
theorem claim_C9 :
    (∀ (application : Application) (essential_oil : EssentialOil),
      0 ≤ compute_inhalation_air_concentration application essential_oil) ∧
    (∀ (application : Application) (essential_oil : EssentialOil),
      application.room_volume_m3 = none ∨
        application.exposure_duration_min = none ∨
        essential_oil.drop_weight_mg = 0 →
      compute_inhalation_air_concentration application essential_oil = 0) ∧
    (∀ (application : Application) (essential_oil : EssentialOil)
        (rv t : ℚ),
      application.room_volume_m3 = some rv →
      application.exposure_duration_min = some t →
      0 < rv → 0 < t → 0 < application.air_change_rate →
      0 ≤ application.daily_amount → 0 < essential_oil.drop_weight_mg →
      0 ≤ application.evaporation_rate →
      compute_inhalation_air_concentration application essential_oil =
        ((application.daily_amount * essential_oil.drop_weight_mg *
            application.evaporation_rate / rv : ℚ) : ℝ) *
          (1 - Real.exp
            (-((application.air_change_rate * (t / 60) : ℚ) : ℝ))) /
          ((application.air_change_rate * (t / 60) : ℚ) : ℝ)) := by
  refine ⟨fun application essential_oil => ?_,
    fun application essential_oil h => ?_,
    fun application essential_oil rv t hrv ht h0rv h0t h0ach hda hdrop hev => ?_⟩
  · unfold compute_inhalation_air_concentration
    split_ifs
    · exact le_refl 0
    · exact le_max_left 0 _
  · unfold compute_inhalation_air_concentration
    rcases h with h | h | h <;> simp [h]
  · unfold compute_inhalation_air_concentration
    rw [hrv, ht]
    simp only [Option.getD_some]
    rw [if_neg, if_pos]
    · have hy : (0 : ℚ) < application.air_change_rate * (t / 60) :=
        mul_pos h0ach (by positivity)
      have hmass : (0 : ℚ) ≤ application.daily_amount *
          essential_oil.drop_weight_mg * application.evaporation_rate /
          rv :=
        div_nonneg (mul_nonneg (mul_nonneg hda hdrop.le) hev) h0rv.le
      have htr : (0 : ℝ) < (t : ℝ) := by exact_mod_cast h0t
      have hachr : (0 : ℝ) < (application.air_change_rate : ℝ) := by
        exact_mod_cast h0ach
      have hexp : Real.exp
          (-((application.air_change_rate * (t / 60) : ℚ) : ℝ)) ≤ 1 := by
        rw [Real.exp_le_one_iff]
        push_cast
        nlinarith [htr, hachr]
      refine max_eq_right ?_
      refine div_nonneg (mul_nonneg ?_ (by linarith)) ?_
      · exact_mod_cast hmass
      · exact_mod_cast hy.le
    · exact ⟨h0ach, by positivity⟩
    · push_neg
      exact ⟨ne_of_gt h0rv, ne_of_gt h0t, ne_of_gt hdrop⟩

/-- Witness for C9 at the scenario-D inhalation parameters. -/
theorem claim_C9_witness :
    (0 ≤ compute_inhalation_air_concentration appInhal oilEuca) ∧
    compute_inhalation_air_concentration appTop oilLin = 0 ∧
    compute_inhalation_air_concentration appInhal oilEuca =
      ((3 * 25 * (3/10) / 20 : ℚ) : ℝ) *
        (1 - Real.exp (-((1 * ((30 : ℚ) / 60) : ℚ) : ℝ))) /
        ((1 * ((30 : ℚ) / 60) : ℚ) : ℝ) :=
  ⟨claim_C9.1 appInhal oilEuca,
   claim_C9.2.1 appTop oilLin (Or.inl rfl),
   claim_C9.2.2 appInhal oilEuca 20 30 rfl rfl (by norm_num)
     (by norm_num) (by norm_num [appInhal]) (by norm_num [appInhal])
     (by norm_num [oilEuca]) (by norm_num [appInhal])⟩

/-- A found constituent carries the looked-up name. -/
theorem findByName_eq_some_name {l : List Constituent} {name : String}
    {m : Constituent} (h : findByName l name = some m) : m.name = name := by
  have := List.find?_some h
  simpa using this

/-- Lookup commutes with a name-preserving map. -/
theorem findByName_map (l : List Constituent)
    (u : Constituent → Constituent) (hu : ∀ c, (u c).name = c.name)
    (name : String) :
    findByName (l.map u) name = (findByName l name).map u := by
  induction l with
  | nil => simp [findByName]
  | cons c l ih =>
    unfold findByName at ih ⊢
    by_cases h : c.name = name
    · simp [List.find?_cons, hu, h]
    · simp [List.find?_cons, hu, h, ih]

/-- The collision test of `insertConstituent` agrees with lookup. -/
theorem any_name_eq_isSome (l : List Constituent) (nm : String) :
    l.any (fun m => m.name = nm) = (findByName l nm).isSome := by
  induction l with
  | nil => simp [findByName]
  | cons c l ih =>
    by_cases h : c.name = nm <;> simp [findByName, List.find?_cons, h, ih]

/-- Lookup over an appended mapping. -/
theorem findByName_append (l₁ l₂ : List Constituent) (name : String) :
    findByName (l₁ ++ l₂) name =
      (findByName l₁ name).or (findByName l₂ name) := by
  induction l₁ with
  | nil => simp [findByName]
  | cons c l ih =>
    by_cases h : c.name = name <;>
      simp [findByName, List.find?_cons, h, ih]

/-- The effect of one insertion on the lookup of any name. -/
theorem findByName_insertConstituent (merged : List Constituent)
    (oilName : String) (p : ℚ) (c : Constituent) (name : String) :
    findByName (insertConstituent merged oilName p c) name =
      if c.name = name then
        some (match findByName merged name with
          | none => freshMerged oilName p c
          | some m => bumpMerged p c m)
      else findByName merged name := by
  unfold insertConstituent
  by_cases hin : merged.any (fun m => m.name = c.name)
  · rw [if_pos hin]
    have hu : ∀ m : Constituent,
        ((fun m => if m.name = c.name then bumpMerged p c m else m) m).name =
          m.name := by
      intro m
      by_cases h : m.name = c.name <;> simp [bumpMerged, h]
    rw [findByName_map _ _ hu]
    rw [any_name_eq_isSome] at hin
    by_cases hc : c.name = name
    · subst hc
      cases hfind : findByName merged c.name with
      | none => rw [hfind] at hin; simp at hin
      | some m =>
        have hm : m.name = c.name := findByName_eq_some_name hfind
        simp [hfind, hm]
    · rw [if_neg hc]
      cases hfind : findByName merged name with
      | none => simp
      | some m =>
        have hm : m.name = name := findByName_eq_some_name hfind
        have hne : ¬ m.name = c.name := by
          rw [hm]
          exact fun h => hc h.symm
        simp [hfind, hne]
  · rw [if_neg hin]
    rw [findByName_append]
    rw [any_name_eq_isSome] at hin
    have hnone : findByName merged c.name = none := by
      cases hfind : findByName merged c.name with
      | none => rfl
      | some m => rw [hfind] at hin; simp at hin
    by_cases hc : c.name = name
    · subst hc
      rw [hnone]
      simp [findByName, List.find?_cons, freshMerged]
    · have : findByName [freshMerged oilName p c] name = none := by
        simp [findByName, List.find?_cons, freshMerged, hc]
      rw [this, if_neg hc, Option.or_none]

/-- The nested merge loops equal a single fold over the visited triples. -/
theorem mergeLoop_eq_foldT (items : List FormulaItem) :
    mergeLoop items = (oilTriples items).foldl mergeStepT [] := by
  unfold mergeLoop oilTriples
  suffices h : ∀ (l : List FormulaItem) (acc : List Constituent),
      l.foldl (fun acc it => it.oil.constituents.foldl
        (fun a c => insertConstituent a it.oil.name (it.percentage / 100) c)
        acc) acc =
      (l.flatMap (fun it => it.oil.constituents.map
        (fun c => (it.oil.name, it.percentage / 100, c)))).foldl
        mergeStepT acc by
    exact h items []
  intro l
  induction l with
  | nil => intro acc; simp
  | cons it l ih =>
    intro acc
    simp only [List.foldl_cons, List.flatMap_cons, List.foldl_append,
      List.foldl_map, ih]
    rfl

/-- Lookup after the triple fold equals an option-level fold. -/
theorem findByName_foldT (ts : List (String × ℚ × Constituent))
    (acc : List Constituent) (name : String) :
    findByName (ts.foldl mergeStepT acc) name =
      ts.foldl (optStep name) (findByName acc name) := by
  induction ts generalizing acc with
  | nil => rfl
  | cons tr ts ih =>
    rw [List.foldl_cons, List.foldl_cons, ih]
    congr 1
    rw [mergeStepT, findByName_insertConstituent]
    rfl

/-- Non-matching triples do not affect the option-level fold. -/
theorem foldl_optStep_filter (name : String)
    (ts : List (String × ℚ × Constituent)) (o : Option Constituent) :
    ts.foldl (optStep name) o =
      (ts.filter (fun tr => tr.2.2.name = name)).foldl (optStep name) o := by
  induction ts generalizing o with
  | nil => rfl
  | cons tr ts ih =>
    by_cases h : tr.2.2.name = name
    · simp [List.filter_cons, h, List.foldl_cons, ih]
    · simp [List.filter_cons, h, List.foldl_cons, ih, optStep]

/-- On matching triples the option-level fold is the collision-update
fold. -/
theorem foldl_optStep_some (name : String)
    (ms : List (String × ℚ × Constituent))
    (hms : ∀ tr ∈ ms, tr.2.2.name = name) (m0 : Constituent) :
    ms.foldl (optStep name) (some m0) = some (ms.foldl bumpStepT m0) := by
  induction ms generalizing m0 with
  | nil => rfl
  | cons tr ms ih =>
    rw [List.foldl_cons, List.foldl_cons]
    rw [optStep, if_pos (hms tr (List.mem_cons_self tr ms))]
    exact ih (fun tr htr => hms tr (List.mem_cons_of_mem _ htr)) _

/-- Collision updates accumulate the weighted fractions. -/
theorem foldl_bumpStepT_fraction (ms : List (String × ℚ × Constituent))
    (m0 : Constituent) :
    (ms.foldl bumpStepT m0).fraction =
      m0.fraction + (ms.map (fun tr => tr.2.2.fraction * tr.2.1)).sum := by
  induction ms generalizing m0 with
  | nil => simp
  | cons tr ms ih =>
    rw [List.foldl_cons, ih]
    simp [bumpStepT, bumpMerged]
    ring

/-- The NOAEL after the collision-update fold. -/
theorem foldl_bumpStepT_noael (ms : List (String × ℚ × Constituent))
    (m0 : Constituent) :
    (ms.foldl bumpStepT m0).noael =
      (ms.map (fun tr => tr.2.2.noael)).foldl truthyMinUpdate m0.noael := by
  induction ms generalizing m0 with
  | nil => rfl
  | cons tr ms ih =>
    rw [List.foldl_cons, ih]
    rfl

/-- The IFRA limit after the collision-update fold. -/
theorem foldl_bumpStepT_ifra (ms : List (String × ℚ × Constituent))
    (m0 : Constituent) :
    (ms.foldl bumpStepT m0).ifra_limit =
      (ms.map (fun tr => tr.2.2.ifra_limit)).foldl truthyMinUpdate
        m0.ifra_limit := by
  induction ms generalizing m0 with
  | nil => rfl
  | cons tr ms ih =>
    rw [List.foldl_cons, ih]
    rfl

/-- The CIR limit after the collision-update fold. -/
theorem foldl_bumpStepT_cir (ms : List (String × ℚ × Constituent))
    (m0 : Constituent) :
    (ms.foldl bumpStepT m0).cir_limit =
      (ms.map (fun tr => tr.2.2.cir_limit)).foldl truthyMinUpdate
        m0.cir_limit := by
  induction ms generalizing m0 with
  | nil => rfl
  | cons tr ms ih =>
    rw [List.foldl_cons, ih]
    rfl

/-- On null-or-positive values the truthiness-guarded conservative update
is exactly the non-null minimum step. -/
theorem truthyMinUpdate_eq_ominStep (a v : Option ℚ) (hv : optPos v) :
    truthyMinUpdate a v = ominStep a v := by
  cases v with
  | none => rfl
  | some x =>
    have hx : 0 < x := hv
    cases a with
    | none =>
      simp [truthyMinUpdate, ominStep, ne_of_gt hx]
    | some y =>
      by_cases hxy : x < y
      · simp [truthyMinUpdate, ominStep, ne_of_gt hx, hxy]
        exact hxy.le
      · simp [truthyMinUpdate, ominStep, hxy]
        exact not_lt.mp hxy

/-- Fold version of `truthyMinUpdate_eq_ominStep`. -/
theorem foldl_truthy_eq_omin (l : List (Option ℚ))
    (hl : ∀ v ∈ l, optPos v) (a : Option ℚ) :
    l.foldl truthyMinUpdate a = l.foldl ominStep a := by
  induction l generalizing a with
  | nil => rfl
  | cons v l ih =>
    rw [List.foldl_cons, List.foldl_cons,
      truthyMinUpdate_eq_ominStep a v (hl v (List.mem_cons_self v l))]
    exact ih (fun w hw => hl w (List.mem_cons_of_mem _ hw)) _

/-- The non-null minimum step from `none`. -/
theorem ominStep_none (v : Option ℚ) : ominStep none v = v := by
  cases v <;> rfl

/-- A successful merge returns exactly the accumulated constituents. -/
theorem merge_ok_constituents (formula : Formula) (oil : EssentialOil)
    (hok : merge_essential_oils formula = Except.ok oil) :
    oil.constituents = mergeLoop formula.essential_oils := by
  unfold merge_essential_oils at hok
  dsimp only at hok
  split_ifs at hok
  all_goals
    first
    | exact Except.noConfusion hok
    | (injection hok with h; subst h; rfl)

/-- The merged entry of any name is the fold of its matching
contributions (`none` when the name never occurs). -/
theorem merged_find_eq (formula : Formula) (oil : EssentialOil)
    (hok : merge_essential_oils formula = Except.ok oil) (name : String) :
    findByName oil.constituents name =
      match matchingTriples formula name with
      | [] => none
      | tr0 :: rest =>
        some (rest.foldl bumpStepT
          (freshMerged tr0.1 tr0.2.1 tr0.2.2)) := by
  rw [merge_ok_constituents formula oil hok, mergeLoop_eq_foldT,
    findByName_foldT]
  have h0 : findByName [] name = none := rfl
  rw [h0, foldl_optStep_filter]
  have hfe : (oilTriples formula.essential_oils).filter
      (fun tr => tr.2.2.name = name) = matchingTriples formula name := rfl
  rw [hfe]
  have hms : ∀ tr ∈ matchingTriples formula name, tr.2.2.name = name := by
    intro tr htr
    have := (List.mem_filter.mp htr).2
    simpa using this
  cases hmt : matchingTriples formula name with
  | nil => rfl
  | cons tr0 rest =>
    rw [List.foldl_cons]
    have h1 : optStep name none tr0 =
        some (freshMerged tr0.1 tr0.2.1 tr0.2.2) := by
      rw [optStep, if_pos (hms tr0 (hmt ▸ List.mem_cons_self tr0 rest))]
    rw [h1]
    exact foldl_optStep_some name rest
      (fun tr htr => hms tr (hmt ▸ List.mem_cons_of_mem _ htr)) _

/-- C7 (amended): for a successful merge, each merged constituent's
fraction is the sum over contributing oils of fraction × weight, and —
provided every contributed NOAEL/IFRA/CIR value is null or strictly
positive — each of the three toxicology fields equals the minimum of the
non-null contributed values (null only when every contribution is null).
The positivity proviso is forced by the source's truthiness test, under
which a contributed 0.0 never overwrites. -/
theorem claim_C7 (formula : Formula) (oil : EssentialOil)
    (hok : merge_essential_oils formula = Except.ok oil)
    (hpos : ∀ it ∈ formula.essential_oils, ∀ c ∈ it.oil.constituents,
      optPos c.noael ∧ optPos c.ifra_limit ∧ optPos c.cir_limit)
    (name : String) (m : Constituent)
    (hm : findByName oil.constituents name = some m) :
    m.fraction = fractionContribSum formula name ∧
    m.noael = nonNullMin (contribValues formula name
      (fun c => c.noael)) ∧
    m.ifra_limit = nonNullMin (contribValues formula name
      (fun c => c.ifra_limit)) ∧
    m.cir_limit = nonNullMin (contribValues formula name
      (fun c => c.cir_limit)) := by
  have hposT : ∀ tr ∈ matchingTriples formula name,
      optPos tr.2.2.noael ∧ optPos tr.2.2.ifra_limit ∧
        optPos tr.2.2.cir_limit := by
    intro tr htr
    have h1 : tr ∈ oilTriples formula.essential_oils :=
      (List.mem_filter.mp htr).1
    unfold oilTriples at h1
    rw [List.mem_flatMap] at h1
    obtain ⟨it, hit, htr2⟩ := h1
    rw [List.mem_map] at htr2
    obtain ⟨c, hc, hceq⟩ := htr2
    have hp := hpos it hit c hc
    rw [← hceq]
    simpa using hp
  rw [merged_find_eq formula oil hok name] at hm
  cases hmt : matchingTriples formula name with
  | nil =>
    rw [hmt] at hm
    exact absurd hm (by simp)
  | cons tr0 rest =>
    rw [hmt] at hm
    simp only [Option.some.injEq] at hm
    subst hm
    have hrestpos : ∀ tr ∈ rest, optPos tr.2.2.noael ∧
        optPos tr.2.2.ifra_limit ∧ optPos tr.2.2.cir_limit :=
      fun tr htr => hposT tr (hmt ▸ List.mem_cons_of_mem _ htr)
    refine ⟨?_, ?_, ?_, ?_⟩
    · rw [foldl_bumpStepT_fraction]
      unfold fractionContribSum
      rw [hmt]
      simp [freshMerged]
    · rw [foldl_bumpStepT_noael]
      have hfresh : (freshMerged tr0.1 tr0.2.1 tr0.2.2).noael =
          tr0.2.2.noael := rfl
      rw [hfresh, foldl_truthy_eq_omin _
        (fun v hv => by
          rw [List.mem_map] at hv
          obtain ⟨tr, htr, hveq⟩ := hv
          rw [← hveq]
          exact (hrestpos tr htr).1)]
      unfold contribValues nonNullMin
      rw [hmt]
      rw [List.map_cons, List.foldl_cons, ominStep_none]
    · rw [foldl_bumpStepT_ifra]
      have hfresh : (freshMerged tr0.1 tr0.2.1 tr0.2.2).ifra_limit =
          tr0.2.2.ifra_limit := rfl
      rw [hfresh, foldl_truthy_eq_omin _
        (fun v hv => by
          rw [List.mem_map] at hv
          obtain ⟨tr, htr, hveq⟩ := hv
          rw [← hveq]
          exact (hrestpos tr htr).2.1)]
      unfold contribValues nonNullMin
      rw [hmt]
      rw [List.map_cons, List.foldl_cons, ominStep_none]
    · rw [foldl_bumpStepT_cir]
      have hfresh : (freshMerged tr0.1 tr0.2.1 tr0.2.2).cir_limit =
          tr0.2.2.cir_limit := rfl
      rw [hfresh, foldl_truthy_eq_omin _
        (fun v hv => by
          rw [List.mem_map] at hv
          obtain ⟨tr, htr, hveq⟩ := hv
          rw [← hveq]
          exact (hrestpos tr htr).2.2)]
      unfold contribValues nonNullMin
      rw [hmt]
      rw [List.map_cons, List.foldl_cons, ominStep_none]

/-- Counterexample for C7 as stated ("including when the contributed value
is 0.0"): with contributions 5.0 then 0.0 for the same name, the merged
NOAEL is 5 while the minimum of the non-null contributions is 0 — the
truthiness test discards the 0.0 update. -/
theorem claim_C7_counterexample :
    ((merge_essential_oils formulaZeroNoael).toOption.map
      (fun oil => (findByName oil.constituents "x").map
        (fun m => m.noael))) = some (some (some 5)) ∧
    nonNullMin (contribValues formulaZeroNoael "x"
      (fun c => c.noael)) = some 0 ∧
    some (5 : ℚ) ≠ some (0 : ℚ) := by
  refine ⟨?_, ?_, by norm_num⟩ <;>
    norm_num +decide [merge_essential_oils, mergeLoop, insertConstituent,
      freshMerged, bumpMerged, truthyMinUpdate, findByName,
      formulaZeroNoael, Except.toOption, nonNullMin, contribValues,
      matchingTriples, oilTriples, ominStep, List.find?]

/-- Witness for C7 at the 60/40 formula of the manual test. -/
theorem claim_C7_witness :
    ∃ oil m, merge_essential_oils formula6040 = Except.ok oil ∧
      findByName oil.constituents "linalool" = some m ∧
      m.fraction = fractionContribSum formula6040 "linalool" ∧
      m.noael = nonNullMin (contribValues formula6040 "linalool"
        (fun c => c.noael)) ∧
      m.ifra_limit = nonNullMin (contribValues formula6040 "linalool"
        (fun c => c.ifra_limit)) ∧
      m.cir_limit = nonNullMin (contribValues formula6040 "linalool"
        (fun c => c.cir_limit)) := by
  match hok : merge_essential_oils formula6040 with
  | Except.error e =>
    exfalso
    unfold merge_essential_oils at hok
    dsimp only at hok
    rw [if_neg (by simp [formula6040]),
      if_neg (by norm_num [formula6040])] at hok
    exact Except.noConfusion hok
  | Except.ok oil =>
    have hm : findByName oil.constituents "linalool" =
        some ⟨"linalool", 3/10, some 500, none, none, false, false, 1,
          some "Lavande"⟩ := by
      rw [merge_ok_constituents _ _ hok]
      norm_num +decide [mergeLoop, insertConstituent, freshMerged,
        findByName, formula6040, oilLin, List.find?]
    have hc := claim_C7 formula6040 oil hok (by decide) "linalool" _ hm
    exact ⟨oil, _, rfl, hm, hc.1, hc.2.1, hc.2.2.1, hc.2.2.2⟩
